import Mathlib

/-!
Shallow embedding of `src/src/io/driver/windows_driver.rs` from the
escpos-rs repository (the Windows raw-spool driver), together with proofs
of the specification's claims about it.

The driver accumulates bytes in an in-memory buffer (`write`) and, on
`flush`, runs a staged handshake against the Windows print-spool API:
OpenPrinterW, StartDocPrinterW, StartPagePrinter, WritePrinter, then the
reverse-order cleanup EndPagePrinter, EndDocPrinter, ClosePrinter.

The OS spooler is external, so it is modelled as an oracle (`OsWorld`)
giving the outcome of each OS call a single flush invocation can make.
Each driver operation returns, besides its Rust-level result, the list of
OS calls it performs, so that "no OS interaction" and the acquire/release
discipline are observable facts of the embedding.
-/

namespace EscposWindows

/-- Vec<u8>: an ordered byte sequence (byte values are opaque to the driver). -/
abbrev Bytes := List Nat

/-- Truncation to a 32-bit unsigned integer, for `as u32` casts and for the
`written` out-parameter of WritePrinter, which is a `u32` in the source. -/
def u32 (n : Nat) : Nat := n % 2 ^ 32

/-- Modelled from the spec: the `windows_printer` module is not under `src/`.
Per spec section 3, a Printer Identity is an opaque, OS-native addressable
reference resolved by the external Device Reference collaborator; the driver
only consumes its value via `get_raw_name`. We model the raw PWSTR name as
an opaque natural number. -/
structure WindowsPrinter where
  raw_name : Nat
deriving Repr, DecidableEq

/-- Modelled from the spec: `WindowsPrinter::get_raw_name` returns the raw
resolved name value (a PWSTR in the source). -/
def WindowsPrinter.get_raw_name (p : WindowsPrinter) : Nat := p.raw_name

/-- struct WindowsDriver { printer_name: PWSTR, buffer: Rc<RefCell<Vec<u8>>> }.
The buffer is exclusively owned per spec section 5, so it is modelled as a
plain field. -/
structure WindowsDriver where
  printer_name : Nat
  buffer : Bytes
deriving Repr, DecidableEq

/-- enum PrinterError (the `Io` variant is the only one this driver builds). -/
inductive PrinterError where
  | Io : String → PrinterError
deriving Repr, DecidableEq

/-- One OS print-spool API call, as recorded in a trace. `writePrinter`
records the transmitted payload and the length argument passed
(`buffer.len() as u32`). -/
inductive OsCall where
  | openPrinterW
  | startDocPrinterW
  | startPagePrinter
  | writePrinter (data : Bytes) (len : Nat)
  | endPagePrinter
  | endDocPrinter
  | closePrinter
deriving Repr, DecidableEq

/-- Oracle for the OS spooler: the outcome of each call one `write_all`
invocation can make. `startDocOk` stands for `StartDocPrinterW ≠ 0`,
`written` for the u32 value WritePrinter stores into its out-parameter. -/
structure OsWorld where
  openOk : Bool
  startDocOk : Bool
  startPageOk : Bool
  writeOk : Bool
  written : Nat
  endPageOk : Bool
  endDocOk : Bool
  closeOk : Bool
deriving Repr, DecidableEq

/-- Everything observable about one `write_all` invocation: the returned
`Result<()>`, the OS calls of the acquisition/transmit phase (first unsafe
block) in order, the OS calls of the cleanup phase (second unsafe block) in
order, the cleanup warnings printed to stderr, and the driver state after
the call. -/
structure FlushOutput where
  result : Except PrinterError Unit
  acquireCalls : List OsCall
  cleanupCalls : List OsCall
  warnings : List String
  driver : WindowsDriver
deriving Repr

/-- WindowsDriver::write_all. The nested if/else acquisition phase of the
source is written as a guard chain computing the accumulated `error`, the
three `is_*` flags and the calls attempted, exactly as the source sets
them; the cleanup phase then releases each resource iff its flag is set,
turning failures into warnings; finally the accumulated error (if any) is
returned. The buffer is only read (`self.buffer.borrow()`), never written,
so the driver state in the output is the input state. -/
def WindowsDriver.write_all (d : WindowsDriver) (os : OsWorld) : FlushOutput :=
  let step : Option PrinterError × Bool × Bool × Bool × List OsCall :=
    if os.openOk = false then
      (some (.Io "Failed to open printer"), false, false, false,
        [.openPrinterW])
    else if os.startDocOk = false then
      (some (.Io "Failed to start doc"), true, false, false,
        [.openPrinterW, .startDocPrinterW])
    else if os.startPageOk = false then
      (some (.Io "Failed to start page"), true, true, false,
        [.openPrinterW, .startDocPrinterW, .startPagePrinter])
    else if os.writeOk = false then
      (some (.Io "Failed to write to printer"), true, true, true,
        [.openPrinterW, .startDocPrinterW, .startPagePrinter,
          .writePrinter d.buffer (u32 d.buffer.length)])
    else if u32 os.written ≠ u32 d.buffer.length then
      (some (.Io "Failed to write all bytes to printer"), true, true, true,
        [.openPrinterW, .startDocPrinterW, .startPagePrinter,
          .writePrinter d.buffer (u32 d.buffer.length)])
    else
      (none, true, true, true,
        [.openPrinterW, .startDocPrinterW, .startPagePrinter,
          .writePrinter d.buffer (u32 d.buffer.length)])
  match step with
  | (error, is_printer_open, is_doc_started, is_page_started, acquireCalls) =>
    { result :=
        match error with
        | some err => .error err
        | none => .ok ()
      acquireCalls := acquireCalls
      cleanupCalls :=
        (if is_page_started then [OsCall.endPagePrinter] else []) ++
        (if is_doc_started then [OsCall.endDocPrinter] else []) ++
        (if is_printer_open then [OsCall.closePrinter] else [])
      warnings :=
        (if is_page_started && !os.endPageOk then
          ["Warning: Failed to end page"] else []) ++
        (if is_doc_started && !os.endDocOk then
          ["Warning: Failed to end document"] else []) ++
        (if is_printer_open && !os.closeOk then
          ["Warning: Failed to close printer"] else [])
      driver := d }

/-- WindowsDriver::open: builds the driver from the printer's raw name with
an empty buffer, always returning Ok; the second component is the list of
OS calls performed (none — the body is a plain constructor call). -/
def WindowsDriver.«open» (printer : WindowsPrinter) :
    Except PrinterError WindowsDriver × List OsCall :=
  (.ok { printer_name := printer.get_raw_name, buffer := [] }, [])

/-- Driver::name for WindowsDriver: the constant string, no OS calls. -/
def WindowsDriver.name (_d : WindowsDriver) : String × List OsCall :=
  ("Windows Driver", [])

/-- Driver::write for WindowsDriver: appends `data` to the buffer
(`extend_from_slice`) and returns Ok; no OS calls. -/
def WindowsDriver.write (d : WindowsDriver) (data : Bytes) :
    Except PrinterError Unit × WindowsDriver × List OsCall :=
  (.ok (), { d with buffer := d.buffer ++ data }, [])

/-- Driver::read for WindowsDriver: returns Ok(0), leaves the driver
untouched, performs no OS calls. -/
def WindowsDriver.read (d : WindowsDriver) (_buf : Bytes) :
    Except PrinterError Nat × WindowsDriver × List OsCall :=
  (.ok 0, d, [])

/-- Driver::flush for WindowsDriver: delegates to write_all. -/
def WindowsDriver.flush (d : WindowsDriver) (os : OsWorld) : FlushOutput :=
  d.write_all os

/-! Spec-side definitions (written from the specification's words, for the
refinement-style claims; to be compared with the embedding above). -/

/-- Spec section 3: the three nested resources, in acquisition order. -/
inductive Resource where
  | printerHandle
  | docSession
  | pageSession
deriving Repr, DecidableEq

/-- Spec: the release call paired with each resource. -/
def releaseCall : Resource → OsCall
  | .printerHandle => .closePrinter
  | .docSession => .endDocPrinter
  | .pageSession => .endPagePrinter

/-- Spec: the resources whose acquisition succeeds under oracle `os`, in
acquisition order — the handle iff open succeeds, the document session iff
open then start-document succeed, the page session iff open, start-document
and start-page all succeed. -/
def acquiredResources (os : OsWorld) : List Resource :=
  (if os.openOk then [Resource.printerHandle] else []) ++
  (if os.openOk && os.startDocOk then [Resource.docSession] else []) ++
  (if os.openOk && os.startDocOk && os.startPageOk then
    [Resource.pageSession] else [])

/-- Spec section 3 invariant, as a list of calls: release exactly the
acquired resources, in the exact reverse of acquisition order. -/
def specCleanup (os : OsWorld) : List OsCall :=
  (acquiredResources os).reverse.map releaseCall

/-- Spec section 7 propagation policy: the first primary error encountered
among the Open, StartDocument, StartPage and Transmit stages (a Transmit
error being either a call failure or a short write after the u32 cast), or
none when every stage succeeds. -/
def firstPrimaryError (os : OsWorld) (len : Nat) : Option PrinterError :=
  if os.openOk = false then some (.Io "Failed to open printer")
  else if os.startDocOk = false then some (.Io "Failed to start doc")
  else if os.startPageOk = false then some (.Io "Failed to start page")
  else if os.writeOk = false then some (.Io "Failed to write to printer")
  else if u32 os.written ≠ u32 len then
    some (.Io "Failed to write all bytes to printer")
  else none

/-! Shared helper lemmas about write_all. -/

/-- The cleanup phase of write_all is the spec's cleanup list: the acquired
resources, released in reverse acquisition order. -/
theorem write_all_cleanupCalls (d : WindowsDriver) (os : OsWorld) :
    (d.write_all os).cleanupCalls = specCleanup os := by
  rcases os with ⟨o, sd, sp, w, wr, ep, ed, c⟩
  cases o <;> cases sd <;> cases sp <;> cases w <;>
    by_cases hw : u32 wr = u32 d.buffer.length <;>
    simp [WindowsDriver.write_all, specCleanup, acquiredResources, releaseCall, hw]

/-- write_all never changes the driver state (the buffer is only read). -/
theorem write_all_driver (d : WindowsDriver) (os : OsWorld) :
    (d.write_all os).driver = d := by
  rcases os with ⟨o, sd, sp, w, wr, ep, ed, c⟩
  cases o <;> cases sd <;> cases sp <;> cases w <;>
    by_cases hw : u32 wr = u32 d.buffer.length <;>
    simp [WindowsDriver.write_all, hw]

/-! Claim theorems. -/

/-- C1: for every terminal outcome of flush (write_all), the cleanup phase
releases exactly the resources whose acquisition succeeded, in the exact
reverse of acquisition order (EndPagePrinter iff StartPagePrinter
succeeded, EndDocPrinter iff StartDocPrinterW succeeded, ClosePrinter iff
OpenPrinterW succeeded, no release duplicated or skipped); in particular,
if StartPage fails, EndDocument and ClosePrinter are still invoked but
EndPage is not. -/
theorem cleanup_releases_exactly_acquired (d : WindowsDriver) (os : OsWorld) :
    (d.write_all os).cleanupCalls = specCleanup os ∧
    (os.openOk = true → os.startDocOk = true → os.startPageOk = false →
      (d.write_all os).cleanupCalls = [OsCall.endDocPrinter, OsCall.closePrinter] ∧
        OsCall.endPagePrinter ∉ (d.write_all os).cleanupCalls) := by
  rcases os with ⟨o, sd, sp, w, wr, ep, ed, c⟩
  cases o <;> cases sd <;> cases sp <;> cases w <;>
    by_cases hw : u32 wr = u32 d.buffer.length <;>
    simp [WindowsDriver.write_all, specCleanup, acquiredResources, releaseCall, hw]

/-- C1 witness: at a concrete oracle where StartPage fails, the theorem's
inner hypotheses are discharged and the cleanup is EndDoc then Close. -/
theorem cleanup_releases_exactly_acquired_witness :
    (WindowsDriver.write_all ⟨0, [1, 2]⟩
        ⟨true, true, false, true, 0, true, true, true⟩).cleanupCalls =
      [OsCall.endDocPrinter, OsCall.closePrinter] ∧
      OsCall.endPagePrinter ∉
        (WindowsDriver.write_all ⟨0, [1, 2]⟩
          ⟨true, true, false, true, 0, true, true, true⟩).cleanupCalls :=
  (cleanup_releases_exactly_acquired ⟨0, [1, 2]⟩
      ⟨true, true, false, true, 0, true, true, true⟩).2 rfl rfl rfl

/-- C2: flush returns exactly the first primary error among the Open,
StartDocument, StartPage and Transmit stages (success if none failed);
changing the outcomes of the cleanup calls (EndPage, EndDocument,
ClosePrinter) never changes the returned result and never changes which
cleanup steps are attempted — cleanup failures are only logged. -/
theorem flush_returns_first_primary_error (d : WindowsDriver) (os : OsWorld)
    (x y z : Bool) :
    ((d.write_all os).result =
      match firstPrimaryError os d.buffer.length with
        | some e => .error e
        | none => .ok ()) ∧
    (d.write_all { os with endPageOk := x, endDocOk := y, closeOk := z }).result =
      (d.write_all os).result ∧
    (d.write_all { os with endPageOk := x, endDocOk := y, closeOk := z }).cleanupCalls =
      (d.write_all os).cleanupCalls := by
  rcases os with ⟨o, sd, sp, w, wr, ep, ed, c⟩
  cases o <;> cases sd <;> cases sp <;> cases w <;>
    by_cases hw : u32 wr = u32 d.buffer.length <;>
    simp [WindowsDriver.write_all, firstPrimaryError, hw]

/-- C2 witness: the theorem applied at a concrete oracle whose cleanup
calls all fail, showing the result is still the transmit success. -/
theorem flush_returns_first_primary_error_witness :
    ((WindowsDriver.write_all ⟨0, [5]⟩
        ⟨true, true, true, true, 1, false, false, false⟩).result =
      match firstPrimaryError ⟨true, true, true, true, 1, false, false, false⟩ 1 with
        | some e => .error e
        | none => .ok ()) ∧
    (WindowsDriver.write_all ⟨0, [5]⟩
        ⟨true, true, true, true, 1, true, true, true⟩).result =
      (WindowsDriver.write_all ⟨0, [5]⟩
        ⟨true, true, true, true, 1, false, false, false⟩).result ∧
    (WindowsDriver.write_all ⟨0, [5]⟩
        ⟨true, true, true, true, 1, true, true, true⟩).cleanupCalls =
      (WindowsDriver.write_all ⟨0, [5]⟩
        ⟨true, true, true, true, 1, false, false, false⟩).cleanupCalls :=
  flush_returns_first_primary_error ⟨0, [5]⟩
    ⟨true, true, true, true, 1, false, false, false⟩ true true true

/-- C3: if OpenPrinter fails, flush returns the open-failure error, attempts
no StartDocument, StartPage or Transmit call (the acquisition trace is the
single OpenPrinterW attempt), and performs zero cleanup calls. -/
theorem open_failure_short_circuits (d : WindowsDriver) (os : OsWorld)
    (h : os.openOk = false) :
    (d.write_all os).result = .error (.Io "Failed to open printer") ∧
    (d.write_all os).acquireCalls = [OsCall.openPrinterW] ∧
    (d.write_all os).cleanupCalls = [] ∧
    (d.write_all os).warnings = [] := by
  simp [WindowsDriver.write_all, h]

/-- C3 witness: the theorem at a concrete oracle whose open call fails. -/
theorem open_failure_short_circuits_witness :
    (OsWorld.mk false true true true 3 true true true).openOk = false ∧
    ((WindowsDriver.write_all ⟨0, [1, 2, 3]⟩
        ⟨false, true, true, true, 3, true, true, true⟩).result =
      .error (.Io "Failed to open printer") ∧
    (WindowsDriver.write_all ⟨0, [1, 2, 3]⟩
        ⟨false, true, true, true, 3, true, true, true⟩).acquireCalls =
      [OsCall.openPrinterW] ∧
    (WindowsDriver.write_all ⟨0, [1, 2, 3]⟩
        ⟨false, true, true, true, 3, true, true, true⟩).cleanupCalls = [] ∧
    (WindowsDriver.write_all ⟨0, [1, 2, 3]⟩
        ⟨false, true, true, true, 3, true, true, true⟩).warnings = []) :=
  ⟨rfl, open_failure_short_circuits ⟨0, [1, 2, 3]⟩
    ⟨false, true, true, true, 3, true, true, true⟩ rfl⟩

/-- C4: if WritePrinter succeeds but reports a written count smaller than
the buffer length (compared after the `as u32` cast of the length), flush
returns the transmit-failure error and the full cleanup EndPage,
EndDocument, ClosePrinter still executes. -/
theorem short_write_is_transmit_failure (d : WindowsDriver) (os : OsWorld)
    (ho : os.openOk = true) (hd : os.startDocOk = true)
    (hp : os.startPageOk = true) (hwok : os.writeOk = true)
    (hshort : u32 os.written < u32 d.buffer.length) :
    (d.write_all os).result =
      .error (.Io "Failed to write all bytes to printer") ∧
    (d.write_all os).cleanupCalls =
      [OsCall.endPagePrinter, OsCall.endDocPrinter, OsCall.closePrinter] := by
  have hne : u32 os.written ≠ u32 d.buffer.length := Nat.ne_of_lt hshort
  simp [WindowsDriver.write_all, ho, hd, hp, hwok, hne]

/-- C4 witness: a 10-byte buffer with 7 bytes reported written. -/
theorem short_write_is_transmit_failure_witness :
    u32 7 < u32 (List.replicate 10 0).length ∧
    (WindowsDriver.write_all ⟨0, List.replicate 10 0⟩
        ⟨true, true, true, true, 7, true, true, true⟩).result =
      .error (.Io "Failed to write all bytes to printer") ∧
    (WindowsDriver.write_all ⟨0, List.replicate 10 0⟩
        ⟨true, true, true, true, 7, true, true, true⟩).cleanupCalls =
      [OsCall.endPagePrinter, OsCall.endDocPrinter, OsCall.closePrinter] :=
  ⟨by decide,
    short_write_is_transmit_failure ⟨0, List.replicate 10 0⟩
      ⟨true, true, true, true, 7, true, true, true⟩ rfl rfl rfl rfl (by decide)⟩

/-- C5: for all byte sequences a and b, write(a) then write(b) both return
Ok, leave the pending buffer equal to the prior contents followed by a then
b, and perform no OS calls. -/
theorem write_append_law (d : WindowsDriver) (a b : Bytes) :
    (d.write a).1 = .ok () ∧
    ((d.write a).2.1.write b).1 = .ok () ∧
    ((d.write a).2.1.write b).2.1.buffer = d.buffer ++ a ++ b ∧
    (d.write a).2.2 = [] ∧
    ((d.write a).2.1.write b).2.2 = [] := by
  simp [WindowsDriver.write]

/-- C6: for every input buffer, of any size including zero, read returns
Ok(0), leaves the driver (pending buffer and printer identity) unchanged,
and performs no OS calls. -/
theorem read_neutral (d : WindowsDriver) (buf : Bytes) :
    d.read buf = (.ok 0, d, []) := rfl

/-- C7: flush never mutates the spool buffer — whatever the outcome, the
driver state after write_all is the state before it; consequently a second
flush behaves exactly as the first would under the same oracle,
retransmitting the same bytes. -/
theorem flush_preserves_buffer (d : WindowsDriver) (os os2 : OsWorld) :
    (d.write_all os).driver = d ∧
    (d.write_all os).driver.flush os2 = d.flush os2 := by
  refine ⟨write_all_driver d os, ?_⟩
  rw [write_all_driver d os]

/-- C8: no OS spooler call occurs during construction (open), write, read
or name — their call traces are empty; only flush interacts with the OS,
and one flush invocation performs the whole handshake including the
reverse-order cleanup of everything acquired before returning. -/
theorem os_calls_only_in_flush (p : WindowsPrinter) (d : WindowsDriver)
    (data buf : Bytes) (os : OsWorld) :
    (WindowsDriver.«open» p).2 = [] ∧
    (d.name).2 = [] ∧
    (d.write data).2.2 = [] ∧
    (d.read buf).2.2 = [] ∧
    d.flush os = d.write_all os ∧
    (d.flush os).cleanupCalls = specCleanup os :=
  ⟨rfl, rfl, rfl, rfl, rfl, write_all_cleanupCalls d os⟩

/-- C9: flush on an empty pending buffer is not a no-op: OpenPrinterW is
always attempted; when the four stages succeed, the acquisition trace is
the full handshake with WritePrinter called on the empty payload with
length 0 and the full reverse cleanup runs; and the result is success
exactly when every stage succeeds (here the written count must be 0). -/
theorem flush_empty_buffer_full_handshake (d : WindowsDriver) (os : OsWorld)
    (h : d.buffer = []) :
    OsCall.openPrinterW ∈ (d.flush os).acquireCalls ∧
    (os.openOk = true → os.startDocOk = true → os.startPageOk = true →
      os.writeOk = true →
      (d.flush os).acquireCalls =
        [OsCall.openPrinterW, OsCall.startDocPrinterW, OsCall.startPagePrinter,
          OsCall.writePrinter [] 0] ∧
      (d.flush os).cleanupCalls =
        [OsCall.endPagePrinter, OsCall.endDocPrinter, OsCall.closePrinter]) ∧
    ((d.flush os).result = .ok () ↔
      os.openOk = true ∧ os.startDocOk = true ∧ os.startPageOk = true ∧
        os.writeOk = true ∧ u32 os.written = 0) := by
  rcases d with ⟨pn, buf⟩
  simp only at h
  subst h
  rcases os with ⟨o, sd, sp, w, wr, ep, ed, c⟩
  cases o <;> cases sd <;> cases sp <;> cases w <;>
    by_cases hw : u32 wr = u32 (List.length ([] : Bytes)) <;>
    simp_all [WindowsDriver.flush, WindowsDriver.write_all, u32]

/-- C9 witness: the theorem at the freshly opened driver (empty buffer) and
an all-success oracle reporting 0 bytes written. -/
theorem flush_empty_buffer_full_handshake_witness :
    (WindowsDriver.mk 0 []).buffer = [] ∧
    ((WindowsDriver.flush ⟨0, []⟩
        ⟨true, true, true, true, 0, true, true, true⟩).acquireCalls =
      [OsCall.openPrinterW, OsCall.startDocPrinterW, OsCall.startPagePrinter,
        OsCall.writePrinter [] 0] ∧
    (WindowsDriver.flush ⟨0, []⟩
        ⟨true, true, true, true, 0, true, true, true⟩).cleanupCalls =
      [OsCall.endPagePrinter, OsCall.endDocPrinter, OsCall.closePrinter]) :=
  ⟨rfl, (flush_empty_buffer_full_handshake ⟨0, []⟩
      ⟨true, true, true, true, 0, true, true, true⟩ rfl).2.1
    rfl rfl rfl rfl⟩

/-- C10: WindowsDriver::open returns Ok for every printer identity, stores
the raw name, initializes the pending buffer to empty and performs no OS
call — it neither opens the device nor validates the printer; a
device-level failure (open failing) surfaces only when flush runs. -/
theorem open_always_ok (p : WindowsPrinter) (os : OsWorld) :
    WindowsDriver.«open» p =
      (.ok { printer_name := p.get_raw_name, buffer := [] }, []) ∧
    (os.openOk = false →
      (({ printer_name := p.get_raw_name, buffer := [] } :
          WindowsDriver).flush os).result =
        .error (.Io "Failed to open printer")) :=
  ⟨rfl, fun h => by simp [WindowsDriver.flush, WindowsDriver.write_all, h]⟩

/-- C10 witness: a concrete printer identity and an oracle whose open call
fails; construction still succeeds and the failure appears at flush. -/
theorem open_always_ok_witness :
    WindowsDriver.«open» ⟨42⟩ =
      (.ok { printer_name := WindowsPrinter.get_raw_name ⟨42⟩, buffer := [] }, []) ∧
    (OsWorld.mk false true true true 0 true true true).openOk = false ∧
    (({ printer_name := WindowsPrinter.get_raw_name ⟨42⟩, buffer := [] } :
        WindowsDriver).flush
      ⟨false, true, true, true, 0, true, true, true⟩).result =
        .error (.Io "Failed to open printer") :=
  ⟨(open_always_ok ⟨42⟩ ⟨false, true, true, true, 0, true, true, true⟩).1,
    rfl,
    (open_always_ok ⟨42⟩ ⟨false, true, true, true, 0, true, true, true⟩).2 rfl⟩

end EscposWindows
